import Mathlib

/-
  Verification of the predictive-maintenance scoring engine of the pump
  application (`ai_models.py`).

  Numeric values are idealized as rationals (the source computes with
  IEEE floats; every property checked here is a threshold/ordering
  property, stated over ℚ).  Sensor snapshots (`Dict[str, float]`) are
  association lists keyed by sensor name; a lookup miss models an absent
  dictionary key.  The sklearn/xgboost collaborators (scaler, classifier,
  isolation forest, persistence) are opaque to the repository's code and
  are modelled as oracle records of fallible functions (`Except String`),
  so that the repository's own control flow around them — what it
  validates, catches and converts — is embedded exactly.
-/

set_option autoImplicit false

namespace Pump

/-- A sensor snapshot: `Dict[str, float]` from the source, as an
association list.  Also used for feature-importance maps. -/
abbrev Snapshot := List (String × ℚ)

/-- Dictionary lookup: `sensor_data.get(key)` — `none` models a missing
key (Python `None`). -/
def sget : Snapshot → String → Option ℚ
  | [], _ => none
  | (k, v) :: rest, key => if k = key then some v else sget rest key

/-- Dictionary lookup with default: `sensor_data.get(key, d)`. -/
def sgetD (s : Snapshot) (key : String) (d : ℚ) : ℚ :=
  (sget s key).getD d

/-- The canonical ordered feature list,
`AI_MODELS_CONFIG['failure_prediction']['features']` (config.py). -/
def features : List String :=
  ["vibration_x", "vibration_y", "vibration_z",
   "temperature", "pressure", "flow_rate",
   "power_consumption", "operating_hours",
   "bearing_temperature", "oil_level", "oil_quality"]

/-! ## Risk scorer (`AdvancedFailurePredictor._calculate_risk_level`) -/

/-- The critical-factor count of `_calculate_risk_level`:
temperature > 85, oil_level < 0.2, vibration_x > 6.0, each read with
default 0. -/
def critical_factors (sensor_data : Snapshot) : ℕ :=
  (if 85 < sgetD sensor_data "temperature" 0 then 1 else 0) +
  (if sgetD sensor_data "oil_level" 0 < 1/5 then 1 else 0) +
  (if 6 < sgetD sensor_data "vibration_x" 0 then 1 else 0)

/-- `_calculate_risk_level(probability, sensor_data)`: returns the Arabic
band label and its display color.  `adjusted_probability = probability +
critical_factors * 0.1`; bands are tested from Critical down. -/
def calculate_risk_level (probability : ℚ) (sensor_data : Snapshot) :
    String × String :=
  let adjusted_probability := probability + (critical_factors sensor_data : ℚ) * (1/10)
  if 4/5 ≤ adjusted_probability ∨ 2 ≤ critical_factors sensor_data then
    ("حرج", "#dc3545")
  else if 3/5 ≤ adjusted_probability then ("مرتفع", "#fd7e14")
  else if 2/5 ≤ adjusted_probability then ("متوسط", "#ffc107")
  else if 1/5 ≤ adjusted_probability then ("منخفض", "#20c997")
  else ("طبيعي", "#198754")

/-- The five risk bands named by the specification
(Normal < Low < Medium < High < Critical). -/
inductive RiskLevel
  | normal | low | medium | high | critical
  deriving DecidableEq, Repr

/-- The Arabic label the source uses for each band. -/
def RiskLevel.label : RiskLevel → String
  | .normal => "طبيعي"
  | .low => "منخفض"
  | .medium => "متوسط"
  | .high => "مرتفع"
  | .critical => "حرج"

/-- Rank of a band in the order Normal < Low < Medium < High < Critical. -/
def RiskLevel.rank : RiskLevel → ℕ
  | .normal => 0
  | .low => 1
  | .medium => 2
  | .high => 3
  | .critical => 4

/-- Rank of a band label string (anything outside the five labels gets
rank 0). -/
def riskRank (label : String) : ℕ :=
  if label = "حرج" then 4
  else if label = "مرتفع" then 3
  else if label = "متوسط" then 2
  else if label = "منخفض" then 1
  else 0

/-- The band described by the specification's wording for the risk
scorer: count the true conditions among temperature > 85,
oil_level < 0.2, vibration_x > 6.0; `adjusted = p + 0.1 * c`; then
Critical if `adjusted ≥ 0.8` or `c ≥ 2`, else High if `adjusted ≥ 0.6`,
else Medium if `adjusted ≥ 0.4`, else Low if `adjusted ≥ 0.2`, else
Normal, tested in exactly that order. -/
def riskBandSpec (p : ℚ) (s : Snapshot) : RiskLevel :=
  let c : ℕ :=
    (if 85 < sgetD s "temperature" 0 then 1 else 0) +
    (if sgetD s "oil_level" 0 < 1/5 then 1 else 0) +
    (if 6 < sgetD s "vibration_x" 0 then 1 else 0)
  let adjusted := p + (c : ℚ) * (1/10)
  if 4/5 ≤ adjusted ∨ 2 ≤ c then .critical
  else if 3/5 ≤ adjusted then .high
  else if 2/5 ≤ adjusted then .medium
  else if 1/5 ≤ adjusted then .low
  else .normal

/-! ## Confidence (`AdvancedFailurePredictor._calculate_confidence`) -/

/-- Rounding to four decimal places, `round(x, 4)` (the source's
float-tie banker's rounding is idealized to half-up on ℚ; no claim
depends on the tie case). -/
def round4 (x : ℚ) : ℚ :=
  (round (x * 10000) : ℤ) / 10000

/-- `_calculate_confidence(probability, sensor_data)`: starts from the
probability, multiplied by 1.1 when temperature, vibration_x and
oil_level are all present keys, multiplied by 0.8 when more than three
stored values are exactly 0, capped at 0.95. -/
def calculate_confidence (probability : ℚ) (sensor_data : Snapshot) : ℚ :=
  let base := probability
  let base :=
    if (sget sensor_data "temperature").isSome ∧
       (sget sensor_data "vibration_x").isSome ∧
       (sget sensor_data "oil_level").isSome
    then base * (11/10) else base
  let missing_data := sensor_data.countP (fun kv => decide (kv.2 = 0))
  let base := if 3 < missing_data then base * (4/5) else base
  min base (19/20)

/-! ## Failure-type classifier
(`AdvancedFailurePredictor._determine_failure_type`) -/

/-- The list of failure-type labels collected by
`_determine_failure_type`: one shared vibration threshold
`4.5 + feature_importance.get('vibration_x', 0) * 2` used for all three
axes, a temperature threshold
`80 + feature_importance.get('temperature', 0) * 10`, and five fixed
rules; missing sensor keys read as 0. -/
def failure_labels (feature_importance : Snapshot) (sensor_data : Snapshot) :
    List String :=
  let vibration_threshold := 9/2 + sgetD feature_importance "vibration_x" 0 * 2
  let temperature_threshold := 80 + sgetD feature_importance "temperature" 0 * 10
  (if vibration_threshold < sgetD sensor_data "vibration_x" 0
   then ["عدم اتزان المحور X"] else []) ++
  (if vibration_threshold < sgetD sensor_data "vibration_y" 0
   then ["عدم اتزان المحور Y"] else []) ++
  (if vibration_threshold < sgetD sensor_data "vibration_z" 0
   then ["عدم اتزان المحور Z"] else []) ++
  (if temperature_threshold < sgetD sensor_data "temperature" 0
   then ["ارتفاع درجة الحرارة"] else []) ++
  (if sgetD sensor_data "oil_level" 0 < 3/10 then ["نقص الزيت"] else []) ++
  (if sgetD sensor_data "oil_quality" 0 < 2/5 then ["تلوث الزيت"] else []) ++
  (if 85 < sgetD sensor_data "bearing_temperature" 0 then ["تلف المحامل"] else []) ++
  (if sgetD sensor_data "flow_rate" 0 < 50 then ["انخفاض الكفاءة"] else [])

/-- `_determine_failure_type`: joins the matched labels with "، ", or
returns the fixed no-obvious-failure sentinel when none matched. -/
def determine_failure_type (feature_importance : Snapshot)
    (sensor_data : Snapshot) : String :=
  let failure_types := failure_labels feature_importance sensor_data
  if failure_types = [] then "لا توجد أعطال واضحة"
  else String.intercalate "، " failure_types

/-- The classifier as the claim words it: each vibration axis compared
against its OWN per-axis threshold `4.5 + importance(that axis) * 2`
(the source instead shares the vibration_x-importance threshold across
all three axes). -/
def failure_labels_peraxis (feature_importance : Snapshot)
    (sensor_data : Snapshot) : List String :=
  let temperature_threshold := 80 + sgetD feature_importance "temperature" 0 * 10
  (if 9/2 + sgetD feature_importance "vibration_x" 0 * 2 <
      sgetD sensor_data "vibration_x" 0
   then ["عدم اتزان المحور X"] else []) ++
  (if 9/2 + sgetD feature_importance "vibration_y" 0 * 2 <
      sgetD sensor_data "vibration_y" 0
   then ["عدم اتزان المحور Y"] else []) ++
  (if 9/2 + sgetD feature_importance "vibration_z" 0 * 2 <
      sgetD sensor_data "vibration_z" 0
   then ["عدم اتزان المحور Z"] else []) ++
  (if temperature_threshold < sgetD sensor_data "temperature" 0
   then ["ارتفاع درجة الحرارة"] else []) ++
  (if sgetD sensor_data "oil_level" 0 < 3/10 then ["نقص الزيت"] else []) ++
  (if sgetD sensor_data "oil_quality" 0 < 2/5 then ["تلوث الزيت"] else []) ++
  (if 85 < sgetD sensor_data "bearing_temperature" 0 then ["تلف المحامل"] else []) ++
  (if sgetD sensor_data "flow_rate" 0 < 50 then ["انخفاض الكفاءة"] else [])

/-- Join step of the claim-worded per-axis classifier. -/
def determine_failure_type_peraxis (feature_importance : Snapshot)
    (sensor_data : Snapshot) : String :=
  let failure_types := failure_labels_peraxis feature_importance sensor_data
  if failure_types = [] then "لا توجد أعطال واضحة"
  else String.intercalate "، " failure_types

/-! ## Recommendations
(`AdvancedFailurePredictor._generate_recommendations`) -/

/-- One sequential step of `_generate_recommendations`: when the
condition holds, append the priority-numbered text and bump the
priority counter. -/
def addRec (acc : List String × ℕ) (c : Prop) [Decidable c] (text : String) :
    List String × ℕ :=
  if c then (acc.1 ++ [toString acc.2 ++ ". " ++ text], acc.2 + 1) else acc

/-- `_generate_recommendations(sensor_data, probability, risk_level)`:
rules evaluated in the source's fixed order with a running priority
counter; the probability ladder is mutually exclusive; a fixed
operating-normally message when nothing fired. -/
def generate_recommendations (sensor_data : Snapshot) (probability : ℚ)
    (risk_level : String) : List String :=
  let acc : List String × ℕ := ([], 1)
  let acc := addRec acc (risk_level = "حرج" ∨ risk_level = "مرتفع")
    "إيقاف المضخة فوراً والاتصال بالدعم الفني"
  let acc := addRec acc (sgetD sensor_data "oil_level" 0 < 1/5)
    "إضافة زيت عاجل (المستوى منخفض جداً)"
  let acc := addRec acc (90 < sgetD sensor_data "temperature" 0)
    "تبريد عاجل للمضخة"
  let acc :=
    if 3/5 < probability then
      addRec acc True "جدولة صيانة عاجلة خلال 24 ساعة"
    else if 2/5 < probability then
      addRec acc True "جدولة صيانة خلال 3 أيام"
    else if 1/5 < probability then
      addRec acc True "صيانة وقائية خلال أسبوع"
    else acc
  let acc := addRec acc (sgetD sensor_data "oil_quality" 0 < 1/2)
    "استبدال الزيت في أقرب فرصة"
  let acc := addRec acc
    (4 < sgetD sensor_data "vibration_x" 0 ∨
     4 < sgetD sensor_data "vibration_y" 0 ∨
     4 < sgetD sensor_data "vibration_z" 0)
    "فحص التوازن والمحامل"
  if acc.1 = [] then ["المضخة تعمل بشكل طبيعي - متابعة المراقبة الدورية"]
  else acc.1

/-! ## Maintenance timing and feature contributions -/

/-- `_suggest_maintenance_timing(probability, sensor_data)`. -/
def suggest_maintenance_timing (probability : ℚ) (sensor_data : Snapshot) :
    String :=
  let operating_hours := sgetD sensor_data "operating_hours" 0
  if 7/10 < probability then "فوري (أقل من 24 ساعة)"
  else if 1/2 < probability then "عاجل (1-3 أيام)"
  else if 3/10 < probability then "قريب (أسبوع)"
  else if 3000 < operating_hours then "وقائي (شهري)"
  else "روتيني (كل 3 أشهر)"

/-- `_get_feature_contributions(sensor_data)`: for every entry of the
feature-importance map, `round(value * importance * 10, 4)` with the
sensor value read with default 0. -/
def get_feature_contributions (feature_importance : Snapshot)
    (sensor_data : Snapshot) : Snapshot :=
  feature_importance.map
    (fun kv => (kv.1, round4 (sgetD sensor_data kv.1 0 * kv.2 * 10)))

/-! ## Prediction (`AdvancedFailurePredictor.predict_failure`) -/

/-- The result dictionary of `predict_failure`.  The source's
`timestamp` entry (wall-clock time) is omitted; on the error path the
source's dictionary simply lacks the `missing_features` key, modelled
here as the empty list. -/
structure PredictionResult where
  failure_probability : ℚ
  prediction : ℤ
  predicted_failure_type : String
  confidence : ℚ
  risk_level : String
  risk_color : String
  recommendations : List String
  maintenance_timing : String
  feature_contributions : Snapshot
  model_accuracy : ℚ
  missing_features : List String
  errorMsg : Option String
  deriving DecidableEq, Repr

/-- The mutable fields of `AdvancedFailurePredictor` that
`predict_failure` reads: the trained flag, the recorded accuracy and
the stored feature-importance map. -/
structure PredictorState where
  is_trained : Bool
  accuracy : ℚ
  feature_importance : Snapshot
  deriving DecidableEq, Repr

/-- The ML collaborators of `predict_failure`, each of which may raise:
`train` is the outcome of the implicit `self.train_model()` call (a new
predictor state on success), `preprocess` is
`preprocessor.preprocess_features(..., fit=False)`, `predictProba` and
`predictLabel` are `model.predict_proba(...)[0][1]` and
`model.predict(...)[0]`. -/
structure PredictOracle where
  train : Except String PredictorState
  preprocess : List ℚ → Except String (List ℚ)
  predictProba : List ℚ → Except String ℚ
  predictLabel : List ℚ → Except String ℤ

/-- `_get_error_response(error_msg)`: the fixed error-response shape —
all numeric fields zero, the Unknown risk sentinel, fixed fallback
recommendations and the populated error string. -/
def get_error_response (error_msg : String) : PredictionResult where
  failure_probability := 0
  prediction := 0
  predicted_failure_type := "خطأ في التنبؤ"
  confidence := 0
  risk_level := "غير معروف"
  risk_color := "#6c757d"
  recommendations := ["فحص نظام الذكاء الاصطناعي", "مراجعة السجلات"]
  maintenance_timing := "غير محدد"
  feature_contributions := []
  model_accuracy := 0
  missing_features := []
  errorMsg := some error_msg

/-- The body of `predict_failure` guarded by its `try` block: builds the
ordered feature vector (0 for a missing sensor, whose name is
recorded), runs the fallible preprocessing and inference steps, and on
any failure returns the `_get_error_response` shape instead of
propagating. -/
def predict_body (st : PredictorState) (o : PredictOracle)
    (sensor_data : Snapshot) : PredictionResult :=
  let missing_features := features.filter (fun f => (sget sensor_data f).isNone)
  let input_features := features.map (fun f => (sget sensor_data f).getD 0)
  match o.preprocess input_features with
  | .error e => get_error_response e
  | .ok input_processed =>
    match o.predictProba input_processed with
    | .error e => get_error_response e
    | .ok failure_probability =>
      match o.predictLabel input_processed with
      | .error e => get_error_response e
      | .ok prediction =>
        let rl := calculate_risk_level failure_probability sensor_data
        { failure_probability := round4 failure_probability
          prediction := prediction
          predicted_failure_type :=
            determine_failure_type st.feature_importance sensor_data
          confidence := round4 (calculate_confidence failure_probability sensor_data)
          risk_level := rl.1
          risk_color := rl.2
          recommendations :=
            generate_recommendations sensor_data failure_probability rl.1
          maintenance_timing :=
            suggest_maintenance_timing failure_probability sensor_data
          feature_contributions :=
            get_feature_contributions st.feature_importance sensor_data
          model_accuracy := st.accuracy
          missing_features := missing_features
          errorMsg := none }

/-- `predict_failure(sensor_data)`.  The `if not self.is_trained:
self.train_model()` auto-training fallback sits BEFORE the `try` block
of the source, so a failure of that implicit training pass propagates
(`Except.error`); everything after it is guarded and returns
`_get_error_response` instead of raising. -/
def predict_failure (st : PredictorState) (o : PredictOracle)
    (sensor_data : Snapshot) : Except String PredictionResult :=
  if st.is_trained then .ok (predict_body st o sensor_data)
  else
    match o.train with
    | .error e => .error e
    | .ok st' => .ok (predict_body st' o sensor_data)

/-! ## Training (`AdvancedFailurePredictor.train_model`) -/

/-- A row of the training frame, keyed by column name (the canonical
features plus the `failure` label). -/
abbrev Row := List (String × ℚ)

/-- The sklearn/xgboost collaborators of `train_model`, each fallible:
`train_test_split`, `preprocess_features(fit=True)` on the train split,
`preprocess_features(fit=False)` on the test split, `cross_val_score`,
`model.fit`, the held-out metric computation
(accuracy, precision, recall, f1), `get_feature_importance`, and the
joblib/metadata persistence step. -/
structure TrainOracle where
  split : List Row → Except String (List Row × List Row)
  preprocessFit : List Row → Except String (List (List ℚ))
  preprocessApply : List Row → Except String (List (List ℚ))
  crossVal : Except String (List ℚ)
  fitModel : List (List ℚ) → Except String Unit
  evalModel : List (List ℚ) → Except String (ℚ × ℚ × ℚ × ℚ)
  importances : Except String Snapshot
  persist : Except String Unit

/-- The metrics dictionary returned by `train_model`. -/
structure TrainMetrics where
  accuracy : ℚ
  precisionScore : ℚ
  recallScore : ℚ
  f1_score : ℚ
  feature_importance : Snapshot
  cv_scores : List ℚ
  deriving DecidableEq, Repr

/-- `train_model(use_cross_validation)`.  The source takes no
caller-supplied rows: `training_data` here stands for the frame the
source builds internally with `generate_training_data()` (per the spec,
a training-data source collaborator).  The body applies NO validation
to it — no emptiness or required-column check and no `DataError`
anywhere in the source — and proceeds straight to the split; a failure
of any step is logged and re-raised unchanged (`Except.error`). -/
def train_model (training_data : List Row) (use_cross_validation : Bool)
    (o : TrainOracle) : Except String (TrainMetrics × PredictorState) :=
  match o.split training_data with
  | .error e => .error e
  | .ok (trainSet, testSet) =>
    match o.preprocessFit trainSet with
    | .error e => .error e
    | .ok xTrain =>
      match o.preprocessApply testSet with
      | .error e => .error e
      | .ok _xTest =>
        match (if use_cross_validation then o.crossVal else .ok []) with
        | .error e => .error e
        | .ok cv_scores =>
          match o.fitModel xTrain with
          | .error e => .error e
          | .ok _ =>
            match o.evalModel _xTest with
            | .error e => .error e
            | .ok (acc, prec, recallV, f1) =>
              match o.importances with
              | .error e => .error e
              | .ok fi =>
                match o.persist with
                | .error e => .error e
                | .ok _ =>
                  .ok ({ accuracy := acc, precisionScore := prec,
                         recallScore := recallV, f1_score := f1,
                         feature_importance := fi, cv_scores := cv_scores },
                       { is_trained := true, accuracy := acc,
                         feature_importance := fi })

/-! ## Anomaly detection (`AdvancedAnomalyDetector.detect_anomalies`) -/

/-- One row of the annotated output frame: the original row plus the
three columns the detector adds. -/
structure AnnotatedRow where
  row : Row
  anomaly : Bool
  anomaly_score : ℚ
  anomaly_severity : String
  deriving DecidableEq, Repr

/-- The return value of `detect_anomalies`: either the batch with the
three anomaly columns added, or — on the caught-exception path — the
original batch unchanged, without those columns. -/
inductive AnomalyResult
  | annotated : List AnnotatedRow → AnomalyResult
  | unannotated : List Row → AnomalyResult
  deriving DecidableEq, Repr

/-- The scaler and isolation-forest collaborators of
`detect_anomalies`, each fallible: `scaler.fit_transform`,
`model.fit_predict` (given the contamination parameter) and
`model.decision_function`. -/
structure AnomalyOracle where
  scale : List (List ℚ) → Except String (List (List ℚ))
  fitPredict : ℚ → List (List ℚ) → Except String (List ℤ)
  decisionFunction : List (List ℚ) → Except String (List ℚ)

/-- Forward fill of one column then zero fill, mirroring
`.fillna(method='ffill').fillna(0)`: a missing cell takes the previous
value, and a missing cell with no predecessor becomes 0 (the starting
carry). -/
def ffillCol : ℚ → List (Option ℚ) → List ℚ
  | _, [] => []
  | carry, none :: rest => carry :: ffillCol carry rest
  | _, some v :: rest => v :: ffillCol v rest

/-- Column selection `sensor_data[features]` for the given feature
names: a feature column absent from the whole frame raises (pandas
KeyError); a per-row gap models a NaN cell, filled by `ffillCol`. -/
def extractCols (batch : List Row) : List String → Except String (List (List ℚ))
  | [] => .ok []
  | f :: fs =>
    if batch.all (fun r => (sget r f).isNone)
    then .error ("KeyError: " ++ f)
    else
      match extractCols batch fs with
      | .error e => .error e
      | .ok cols => .ok (ffillCol 0 (batch.map (fun r => sget r f)) :: cols)

/-- The matrix `sensor_data[features].fillna(method='ffill').fillna(0)`,
column-major (one list per canonical feature); the oracle consumes it
opaquely. -/
def extractMatrix (batch : List Row) : Except String (List (List ℚ)) :=
  extractCols batch features

/-- The fallible middle of `detect_anomalies` (everything its `try`
guards after the small-batch check): column extraction, scaling, the
contamination setting `min(0.05 + sensitivity * 0.1, 0.2)`, outlier
fitting and scoring, and the pandas length check implicit in assigning
the result columns back onto the frame. -/
def anomaly_pipeline (o : AnomalyOracle) (sensor_data : List Row)
    (sensitivity : ℚ) : Except String (List ℤ × List ℚ) :=
  match extractMatrix sensor_data with
  | .error e => .error e
  | .ok x =>
    match o.scale x with
    | .error e => .error e
    | .ok xScaled =>
      match o.fitPredict (min (1/20 + sensitivity * (1/10)) (1/5)) xScaled with
      | .error e => .error e
      | .ok anomalies =>
        match o.decisionFunction xScaled with
        | .error e => .error e
        | .ok scores =>
          if anomalies.length = sensor_data.length ∧
             scores.length = sensor_data.length
          then .ok (anomalies, scores)
          else .error "ValueError: length mismatch"

/-- The per-row annotation of the success path: `anomaly` is
`fit_predict == -1`, `anomaly_score` is the RAW decision-function
value, and severity is bucketed on that raw value at the fixed cut
points -0.1 and 0. -/
def annotateRows : List Row → List ℤ → List ℚ → List AnnotatedRow
  | r :: rs, a :: preds, sc :: scs =>
    { row := r
      anomaly := a == -1
      anomaly_score := sc
      anomaly_severity :=
        if sc < -(1/10) then "high" else if sc < 0 then "medium" else "low" }
      :: annotateRows rs preds scs
  | _, _, _ => []

/-- `detect_anomalies(sensor_data, sensitivity)`: the small-batch guard
annotates every row with the non-anomalous defaults without touching
the outlier model; otherwise the fallible pipeline runs and any caught
exception returns the original batch unchanged. -/
def detect_anomalies (o : AnomalyOracle) (sensor_data : List Row)
    (sensitivity : ℚ) : AnomalyResult :=
  if sensor_data.length < 20 then
    .annotated (sensor_data.map (fun r =>
      { row := r, anomaly := false, anomaly_score := 0,
        anomaly_severity := "low" }))
  else
    match anomaly_pipeline o sensor_data sensitivity with
    | .error _ => .unannotated sensor_data
    | .ok (anomalies, scores) =>
      .annotated (annotateRows sensor_data anomalies scores)

/-- Scores column of a detector result (empty on the unannotated
path). -/
def resultScores : AnomalyResult → List ℚ
  | .annotated rs => rs.map (fun r => r.anomaly_score)
  | .unannotated _ => []

/-- Severity column of a detector result (empty on the unannotated
path). -/
def resultSeverities : AnomalyResult → List String
  | .annotated rs => rs.map (fun r => r.anomaly_severity)
  | .unannotated _ => []

/-- Anomaly-flag column of a detector result (empty on the unannotated
path). -/
def resultFlags : AnomalyResult → List Bool
  | .annotated rs => rs.map (fun r => r.anomaly)
  | .unannotated _ => []

/-! ## Concrete fixtures used by the claim checks -/

/-- Rank of the risk banding as a function of the adjusted probability
and the critical-factor count, mirroring the branch order of
`_calculate_risk_level` (4 = Critical, …, 0 = Normal). -/
def bandRank (adjusted : ℚ) (c : ℕ) : ℕ :=
  if 4/5 ≤ adjusted ∨ 2 ≤ c then 4
  else if 3/5 ≤ adjusted then 3
  else if 2/5 ≤ adjusted then 2
  else if 1/5 ≤ adjusted then 1
  else 0

/-- The spec's scenario snapshot: temperature 95, oil_level 0.1,
vibration_x 7.0, every other canonical sensor 0. -/
def snapC8 : Snapshot :=
  [("vibration_x", 7), ("vibration_y", 0), ("vibration_z", 0),
   ("temperature", 95), ("pressure", 0), ("flow_rate", 0),
   ("power_consumption", 0), ("operating_hours", 0),
   ("bearing_temperature", 0), ("oil_level", 1/10), ("oil_quality", 0)]

/-- Importance map giving vibration_y importance 0.5 and every other
feature importance 0. -/
def fiY : Snapshot := [("vibration_y", 1/2)]

/-- Snapshot with vibration_y = 4.8 and everything else absent. -/
def snapY : Snapshot := [("vibration_y", 24/5)]

/-- Importance map giving temperature importance 0.9. -/
def fiT : Snapshot := [("temperature", 9/10)]

/-- Snapshot with temperature 85 and healthy oil/flow readings, so only
the temperature rule can be in play. -/
def snapT : Snapshot :=
  [("temperature", 85), ("oil_level", 1), ("oil_quality", 1),
   ("flow_rate", 100)]

/-- Prediction oracle whose collaborators all succeed with fixed
values. -/
def predictOracleOk : PredictOracle where
  train := .ok { is_trained := true, accuracy := 1, feature_importance := [] }
  preprocess := fun v => .ok v
  predictProba := fun _ => .ok 0
  predictLabel := fun _ => .ok 0

/-- Prediction oracle whose implicit training pass raises. -/
def predictOracleTrainFail : PredictOracle where
  train := .error "training failed"
  preprocess := fun v => .ok v
  predictProba := fun _ => .ok 0
  predictLabel := fun _ => .ok 0

/-- Prediction oracle whose preprocessing step raises. -/
def predictOracleBadPre : PredictOracle where
  train := .ok { is_trained := true, accuracy := 1, feature_importance := [] }
  preprocess := fun _ => .error "preprocessing failed"
  predictProba := fun _ => .ok 0
  predictLabel := fun _ => .ok 0

/-- A row holding every canonical feature with value 1. -/
def rowOnes : Row := features.map (fun f => (f, 1))

/-- A 20-row batch of constant rows (at the small-batch floor). -/
def batch20 : List Row := List.replicate 20 rowOnes

/-- A 10-row batch (below the small-batch floor). -/
def batch10 : List Row := List.replicate 10 rowOnes

/-- Fixed isolation-forest outputs for a 20-row batch: the first row
flagged, raw decision scores -1, 2, then zeros. -/
def preds20 : List ℤ := -1 :: List.replicate 19 1

/-- Raw decision-function scores for `batch20`: minimum -1, maximum 2. -/
def scores20 : List ℚ := -1 :: 2 :: List.replicate 18 0

/-- Anomaly oracle returning the fixed outputs above. -/
def anomalyOracleFixed : AnomalyOracle where
  scale := fun x => .ok x
  fitPredict := fun _ _ => .ok preds20
  decisionFunction := fun _ => .ok scores20

/-- Anomaly oracle whose scaler raises. -/
def anomalyOracleFail : AnomalyOracle where
  scale := fun _ => .error "scaler failed"
  fitPredict := fun _ _ => .ok []
  decisionFunction := fun _ => .ok []

/-- Training oracle whose collaborators all succeed with fixed values
(a collaborator set that accepts any dataset, including an empty
one). -/
def trainOracleOk : TrainOracle where
  split := fun d => .ok (d, d)
  preprocessFit := fun _ => .ok []
  preprocessApply := fun _ => .ok []
  crossVal := .ok [1]
  fitModel := fun _ => .ok ()
  evalModel := fun _ => .ok (1, 1, 1, 1)
  importances := .ok []
  persist := .ok ()

/-- Training oracle whose split step raises. -/
def trainOracleBadSplit : TrainOracle where
  split := fun _ => .error "split failed"
  preprocessFit := fun _ => .ok []
  preprocessApply := fun _ => .ok []
  crossVal := .ok []
  fitModel := fun _ => .ok ()
  evalModel := fun _ => .ok (1, 1, 1, 1)
  importances := .ok []
  persist := .ok ()

/-! ## Shared lemmas -/

/-- The rank of the returned band label equals `bandRank` at the
adjusted probability and critical-factor count. -/
theorem riskRank_calc (p : ℚ) (s : Snapshot) :
    riskRank (calculate_risk_level p s).1 =
      bandRank (p + (critical_factors s : ℚ) * (1/10)) (critical_factors s) := by
  simp only [calculate_risk_level, bandRank]
  split_ifs <;> rfl

/-- `bandRank` never decreases when the adjusted probability and the
critical-factor count both rise. -/
theorem bandRank_mono {a a' : ℚ} {c c' : ℕ} (ha : a ≤ a') (hc : c ≤ c') :
    bandRank a c ≤ bandRank a' c' := by
  unfold bandRank
  split_ifs <;> push_neg at * <;> try omega
  all_goals try linarith
  all_goals try obtain ⟨h1, h2⟩ := ‹_ ∧ _›
  all_goals try rcases ‹_ ∨ _› with h | h
  all_goals linarith

/-- The guarded body of `predict_failure` yields either a success
result (no error field) or exactly the `_get_error_response` shape. -/
theorem predict_body_shape (st : PredictorState) (o : PredictOracle) (s : Snapshot) :
    (predict_body st o s).errorMsg = none ∨
      ∃ msg, predict_body st o s = get_error_response msg := by
  rcases hpre : o.preprocess (List.map (fun f => (sget s f).getD 0) features) with e | v
  · exact Or.inr ⟨e, by simp only [predict_body, hpre]⟩
  · rcases hpb : o.predictProba v with e | pb
    · exact Or.inr ⟨e, by simp only [predict_body, hpre, hpb]⟩
    · rcases hpl : o.predictLabel v with e | lb
      · exact Or.inr ⟨e, by simp only [predict_body, hpre, hpb, hpl]⟩
      · refine Or.inl ?_
        simp only [predict_body, hpre, hpb, hpl]

/-- A guarded singleton block shrinks to a sublist when its condition
only gets harder. -/
theorem sublist_if_imp {α : Type} {c c' : Prop} [Decidable c] [Decidable c']
    (h : c' → c) (l : List α) :
    (if c' then l else []).Sublist (if c then l else []) := by
  split_ifs with h1 h2
  · exact List.Sublist.refl l
  · exact absurd (h h1) h2
  · exact List.nil_sublist l
  · exact List.nil_sublist []

/-- Membership in a guarded singleton block. -/
theorem mem_if_singleton {c : Prop} [Decidable c] {x a : String} :
    x ∈ (if c then [a] else []) ↔ c ∧ x = a := by
  split_ifs with h <;> simp [h]

/-- A missing snapshot key reads as the default. -/
theorem sgetD_of_none {s : Snapshot} {k : String} {d : ℚ} (h : sget s k = none) :
    sgetD s k d = d := by simp [sgetD, h]

/-- Column projections of the annotation step: scores come back raw,
severities are the fixed raw-score buckets, flags are `pred == -1`. -/
theorem annotateRows_proj (rs : List Row) (ps : List ℤ) (ss : List ℚ)
    (h1 : rs.length = ps.length) (h2 : rs.length = ss.length) :
    (annotateRows rs ps ss).map (fun a => a.anomaly_score) = ss ∧
    (annotateRows rs ps ss).map (fun a => a.anomaly_severity) =
      ss.map (fun sc => if sc < -(1/10) then "high"
        else if sc < 0 then "medium" else "low") ∧
    (annotateRows rs ps ss).map (fun a => a.anomaly) = ps.map (fun a => a == -1) := by
  induction rs generalizing ps ss with
  | nil =>
    cases ps with
    | nil =>
      cases ss with
      | nil => simp [annotateRows]
      | cons c cs => simp at h2
    | cons p ps' => simp at h1
  | cons r rs ih =>
    cases ps with
    | nil => simp at h1
    | cons p ps' =>
      cases ss with
      | nil => simp at h2
      | cons c cs =>
        simp only [List.length_cons] at h1 h2
        obtain ⟨m1, m2, m3⟩ := ih ps' cs (by omega) (by omega)
        simp [annotateRows, m1, m2, m3]

/-- A successful pipeline run returns per-row outputs of the batch's
length (the final length guard). -/
theorem anomaly_pipeline_ok_lengths (o : AnomalyOracle) (b : List Row)
    (sens : ℚ) (preds : List ℤ) (scores : List ℚ)
    (hp : anomaly_pipeline o b sens = Except.ok (preds, scores)) :
    preds.length = b.length ∧ scores.length = b.length := by
  unfold anomaly_pipeline at hp
  repeat' split at hp
  all_goals simp_all

/-- On a successful pipeline run over a large batch, `detect_anomalies`
returns the annotated rows. -/
theorem detect_ok_annotated (o : AnomalyOracle) (b : List Row) (sens : ℚ)
    (preds : List ℤ) (scores : List ℚ) (h20 : 20 ≤ b.length)
    (hp : anomaly_pipeline o b sens = Except.ok (preds, scores)) :
    detect_anomalies o b sens = AnomalyResult.annotated (annotateRows b preds scores) := by
  unfold detect_anomalies
  rw [if_neg (not_lt.mpr h20), hp]

/-! ## Claim C1 -/

/-- Claim C1, counterexample: with the model not Ready and the implicit
auto-training pass failing, `predict_failure` raises (returns
`Except.error`) instead of converting the failure into the
error-response shape — the auto-training call sits before the `try`
block, so the claim "any failure anywhere in the prediction path,
including the implicit auto-training pass, is caught" is false. -/
theorem C1_counterexample_auto_training_raises :
    predict_failure { is_trained := false, accuracy := 0, feature_importance := [] }
      predictOracleTrainFail [] = Except.error "training failed" := rfl

/-- Claim C1 (amended): once the model is Ready, `predict_failure`
never raises: it returns a result that either carries no error or is
exactly the fixed `_get_error_response` shape for some message. -/
theorem C1_predict_no_raise_when_trained (st : PredictorState)
    (o : PredictOracle) (s : Snapshot) (h : st.is_trained = true) :
    ∃ r, predict_failure st o s = Except.ok r ∧
      (r.errorMsg = none ∨ ∃ msg, r = get_error_response msg) :=
  ⟨predict_body st o s, by simp [predict_failure, h], predict_body_shape st o s⟩

/-- Claim C1, witness: the amended theorem at a Ready state, the all-ok
oracle and the empty snapshot. -/
theorem C1_witness :
    ∃ r, predict_failure { is_trained := true, accuracy := 1, feature_importance := [] }
        predictOracleOk [] = Except.ok r ∧
      (r.errorMsg = none ∨ ∃ msg, r = get_error_response msg) :=
  C1_predict_no_raise_when_trained _ predictOracleOk [] rfl

/-! ## Claim C2 -/

/-- Claim C2, counterexample: on a 20-row batch the annotated
`anomaly_score` column is the raw decision-function output, here
`-1 :: 2 :: …` — not min-max normalized to `[0,1]` (a negative score is
present), and the row with raw score `-1` is bucketed "high" by the
fixed raw cut points rather than by any normalized-score rule. -/
theorem C2_counterexample_scores_not_normalized :
    resultScores (detect_anomalies anomalyOracleFixed batch20 (1/2)) = scores20 ∧
    scores20 = -1 :: 2 :: List.replicate 18 0 ∧
    (resultSeverities (detect_anomalies anomalyOracleFixed batch20 (1/2))).head? =
      some "high" ∧
    ¬(∀ x ∈ resultScores (detect_anomalies anomalyOracleFixed batch20 (1/2)),
        0 ≤ x ∧ x ≤ 1) := by
  have hd := detect_ok_annotated anomalyOracleFixed batch20 (1/2) preds20 scores20
    (by norm_num [batch20]) rfl
  obtain ⟨m1, m2, m3⟩ := annotateRows_proj batch20 preds20 scores20
    (by simp [batch20, preds20]) (by simp [batch20, scores20])
  have hs : resultScores (detect_anomalies anomalyOracleFixed batch20 (1/2)) =
      scores20 := by
    rw [hd]; simpa [resultScores] using m1
  refine ⟨hs, rfl, ?_, ?_⟩
  · rw [hd]
    simp only [resultSeverities]
    rw [m2]
    norm_num [scores20]
  · intro hall
    have hm : (-1 : ℚ) ∈ resultScores (detect_anomalies anomalyOracleFixed batch20 (1/2)) := by
      rw [hs]; simp [scores20]
    have h01 := (hall _ hm).1
    norm_num at h01

/-- Claim C2 (amended): for a batch of at least 20 rows on which the
outlier pipeline succeeds, `detect_anomalies` performs no
normalization: the stored `anomaly_score` column is the raw
decision-function output as-is, the anomaly flag is the
`fit_predict == -1` output, and severity is bucketed on the raw score
at the fixed cut points -0.1 and 0 (high below -0.1, medium below 0,
else low). -/
theorem C2_detect_annotates_raw_scores (o : AnomalyOracle) (b : List Row)
    (sens : ℚ) (preds : List ℤ) (scores : List ℚ) (h20 : 20 ≤ b.length)
    (hp : anomaly_pipeline o b sens = Except.ok (preds, scores)) :
    detect_anomalies o b sens = AnomalyResult.annotated (annotateRows b preds scores) ∧
    resultScores (detect_anomalies o b sens) = scores ∧
    resultSeverities (detect_anomalies o b sens) =
      scores.map (fun sc => if sc < -(1/10) then "high"
        else if sc < 0 then "medium" else "low") ∧
    resultFlags (detect_anomalies o b sens) = preds.map (fun a => a == -1) := by
  have hd := detect_ok_annotated o b sens preds scores h20 hp
  obtain ⟨hl1, hl2⟩ := anomaly_pipeline_ok_lengths o b sens preds scores hp
  obtain ⟨m1, m2, m3⟩ := annotateRows_proj b preds scores hl1.symm hl2.symm
  refine ⟨hd, ?_, ?_, ?_⟩ <;> rw [hd]
  · simpa [resultScores] using m1
  · simpa [resultSeverities] using m2
  · simpa [resultFlags] using m3

/-- Claim C2, witness: the amended theorem at the fixed 20-row batch
and oracle. -/
theorem C2_witness :
    detect_anomalies anomalyOracleFixed batch20 (1/2) =
      AnomalyResult.annotated (annotateRows batch20 preds20 scores20) ∧
    resultScores (detect_anomalies anomalyOracleFixed batch20 (1/2)) = scores20 ∧
    resultSeverities (detect_anomalies anomalyOracleFixed batch20 (1/2)) =
      scores20.map (fun sc => if sc < -(1/10) then "high"
        else if sc < 0 then "medium" else "low") ∧
    resultFlags (detect_anomalies anomalyOracleFixed batch20 (1/2)) =
      preds20.map (fun a => a == -1) :=
  C2_detect_annotates_raw_scores _ _ _ _ _ (by norm_num [batch20]) rfl

/-! ## Claim C3 -/

/-- Claim C3: for every probability and snapshot, the label returned by
`_calculate_risk_level` equals the band described by the specification:
count the true conditions among temperature > 85, oil_level < 0.2,
vibration_x > 6.0; adjust by 0.1 per factor; then Critical / High /
Medium / Low / Normal tested in exactly that order. -/
theorem C3_risk_level_matches_spec_band (p : ℚ) (s : Snapshot) :
    (calculate_risk_level p s).1 = (riskBandSpec p s).label := by
  simp only [calculate_risk_level, riskBandSpec, critical_factors]
  split_ifs <;> rfl

/-! ## Claim C4 -/

/-- Claim C4, counterexample: `train_model` performs no validation of
the training rows — given collaborators that accept an empty dataset,
training on zero rows proceeds to completion instead of failing with a
DataError. -/
theorem C4_counterexample_empty_rows_train_succeeds :
    train_model [] true trainOracleOk =
      Except.ok ({ accuracy := 1, precisionScore := 1, recallScore := 1,
                   f1_score := 1, feature_importance := [], cv_scores := [1] },
                 { is_trained := true, accuracy := 1, feature_importance := [] }) := rfl

/-- Claim C4 (amended): `train_model` takes no caller-supplied rows
(the source generates its dataset internally) and applies no
emptiness or required-column validation; a failure of the underlying
split step is re-raised unchanged, with no DataError wrapper. -/
theorem C4_train_propagates_step_failure (d : List Row) (cv : Bool)
    (o : TrainOracle) (e : String) (h : o.split d = Except.error e) :
    train_model d cv o = Except.error e := by
  unfold train_model; rw [h]

/-- Claim C4, witness: the amended theorem at the empty dataset and the
failing-split oracle. -/
theorem C4_witness :
    train_model [] true trainOracleBadSplit = Except.error "split failed" :=
  C4_train_propagates_step_failure [] true trainOracleBadSplit "split failed" rfl

/-! ## Claim C5 -/

/-- Claim C5, counterexample: the failure-type classifier does NOT give
each vibration axis its own per-axis threshold — all three axes share
the threshold built from the vibration_x importance, so with importance
0.5 on vibration_y and reading 4.8 the code flags the Y axis while the
claim's per-axis rule (threshold 5.5) would not; and raising the
temperature importance from 0 to 0.9 RAISES the temperature threshold
from 80 to 89, making the rule harder (not easier) to trigger at
temperature 85, contrary to the claimed monotonicity direction. -/
theorem C5_counterexample_shared_threshold :
    determine_failure_type fiY snapY ≠ determine_failure_type_peraxis fiY snapY ∧
    determine_failure_type [] snapT = "ارتفاع درجة الحرارة" ∧
    determine_failure_type fiT snapT = "لا توجد أعطال واضحة" := by
  refine ⟨?_, ?_, ?_⟩ <;>
    norm_num +decide [determine_failure_type, determine_failure_type_peraxis,
      failure_labels, failure_labels_peraxis, sgetD, sget, fiY, snapY, fiT, snapT,
      String.intercalate]

/-- Claim C5 (amended): all three vibration axes are compared against
the single shared threshold `4.5 + importance(vibration_x) * 2` (shown
for the Y axis: its rule fires exactly when the reading exceeds the
vibration_x-importance threshold), temperature against
`80 + importance(temperature) * 10`; these thresholds rise with the
importances, so under pointwise-larger importances no new labels
appear — the matched-label list only shrinks (is a sublist). -/
theorem C5_thresholds_shared_and_harden (fi fi' s : Snapshot)
    (hvx : sgetD fi "vibration_x" 0 ≤ sgetD fi' "vibration_x" 0)
    (htp : sgetD fi "temperature" 0 ≤ sgetD fi' "temperature" 0) :
    (failure_labels fi' s).Sublist (failure_labels fi s) ∧
    ("عدم اتزان المحور Y" ∈ failure_labels fi s ↔
      9/2 + sgetD fi "vibration_x" 0 * 2 < sgetD s "vibration_y" 0) := by
  constructor
  · simp only [failure_labels]
    refine List.Sublist.append (List.Sublist.append (List.Sublist.append
      (List.Sublist.append (List.Sublist.append (List.Sublist.append
      (List.Sublist.append ?_ ?_) ?_) ?_) ?_) ?_) ?_) ?_
    · exact sublist_if_imp (fun h => by linarith) _
    · exact sublist_if_imp (fun h => by linarith) _
    · exact sublist_if_imp (fun h => by linarith) _
    · exact sublist_if_imp (fun h => by linarith) _
    · exact sublist_if_imp id _
    · exact sublist_if_imp id _
    · exact sublist_if_imp id _
    · exact sublist_if_imp id _
  · simp +decide [failure_labels, List.mem_append, mem_if_singleton]

/-- Claim C5, witness: the amended theorem comparing the empty
importance map against the vibration_y-weighted one on `snapY`. -/
theorem C5_witness :
    (failure_labels fiY snapY).Sublist (failure_labels [] snapY) ∧
    ("عدم اتزان المحور Y" ∈ failure_labels [] snapY ↔
      9/2 + sgetD ([] : Snapshot) "vibration_x" 0 * 2 < sgetD snapY "vibration_y" 0) :=
  C5_thresholds_shared_and_harden [] fiY snapY
    (by norm_num +decide [sgetD, sget, fiY])
    (by norm_num +decide [sgetD, sget, fiY])

/-! ## Claim C6 -/

/-- Claim C6, counterexample: a snapshot missing ALL keys does not
yield the no-obvious-failure sentinel — the keys defaulted to 0 trigger
the three lower-bound rules (oil_level < 0.3, oil_quality < 0.4,
flow_rate < 50), so the classifier returns their joined labels. -/
theorem C6_counterexample_empty_snapshot_triggers :
    determine_failure_type [] [] = "نقص الزيت، تلوث الزيت، انخفاض الكفاءة" ∧
    determine_failure_type [] [] ≠ "لا توجد أعطال واضحة" := by
  constructor <;>
    norm_num +decide [determine_failure_type, failure_labels, sgetD, sget,
      String.intercalate]

/-- Claim C6 (amended): missing snapshot keys default to 0; a defaulted
key never triggers the five greater-than rules (the three vibration
axes and temperature under nonnegative importances, and bearing
temperature), but a defaulted oil_level, oil_quality or flow_rate DOES
trigger its less-than rule; consequently the all-missing snapshot
yields the three lower-bound labels joined, not the sentinel. -/
theorem C6_default_zero_rule_behaviour :
    (∀ fi s, 0 ≤ sgetD fi "vibration_x" 0 →
      (sget s "vibration_x" = none → "عدم اتزان المحور X" ∉ failure_labels fi s) ∧
      (sget s "vibration_y" = none → "عدم اتزان المحور Y" ∉ failure_labels fi s) ∧
      (sget s "vibration_z" = none → "عدم اتزان المحور Z" ∉ failure_labels fi s)) ∧
    (∀ fi s, 0 ≤ sgetD fi "temperature" 0 → sget s "temperature" = none →
      "ارتفاع درجة الحرارة" ∉ failure_labels fi s) ∧
    (∀ fi s, sget s "bearing_temperature" = none →
      "تلف المحامل" ∉ failure_labels fi s) ∧
    (∀ fi s, sget s "oil_level" = none → "نقص الزيت" ∈ failure_labels fi s) ∧
    (∀ fi s, sget s "oil_quality" = none → "تلوث الزيت" ∈ failure_labels fi s) ∧
    (∀ fi s, sget s "flow_rate" = none → "انخفاض الكفاءة" ∈ failure_labels fi s) ∧
    (∀ fi, 0 ≤ sgetD fi "vibration_x" 0 → 0 ≤ sgetD fi "temperature" 0 →
      determine_failure_type fi [] = "نقص الزيت، تلوث الزيت، انخفاض الكفاءة") := by
  refine ⟨?_, ?_, ?_, ?_, ?_, ?_, ?_⟩
  · intro fi s hx
    refine ⟨?_, ?_, ?_⟩ <;> intro hnone <;>
      simp +decide [failure_labels, List.mem_append, mem_if_singleton,
        sgetD_of_none hnone] <;> linarith
  · intro fi s ht hnone
    simp +decide [failure_labels, List.mem_append, mem_if_singleton,
      sgetD_of_none hnone]
    linarith
  · intro fi s hnone
    simp +decide [failure_labels, List.mem_append, mem_if_singleton,
      sgetD_of_none hnone]
  · intro fi s hnone
    norm_num +decide [failure_labels, List.mem_append, mem_if_singleton,
      sgetD_of_none hnone]
  · intro fi s hnone
    norm_num +decide [failure_labels, List.mem_append, mem_if_singleton,
      sgetD_of_none hnone]
  · intro fi s hnone
    norm_num +decide [failure_labels, List.mem_append, mem_if_singleton,
      sgetD_of_none hnone]
  · intro fi hx ht
    have h0 : ∀ k, sgetD ([] : Snapshot) k 0 = 0 := fun k => rfl
    have hv : ¬(9/2 + sgetD fi "vibration_x" 0 * 2 < (0:ℚ)) := by linarith
    have htt : ¬(80 + sgetD fi "temperature" 0 * 10 < (0:ℚ)) := by linarith
    norm_num +decide [determine_failure_type, failure_labels, h0, hv, htt,
      String.intercalate]

/-! ## Claim C7 -/

/-- Claim C7: raising the temperature from at most 85 to above 85 while
every other key reads the same never lowers the risk band in the order
Normal < Low < Medium < High < Critical. -/
theorem C7_risk_rank_monotone_in_temperature (p : ℚ) (s s' : Snapshot)
    (hother : ∀ k, k ≠ "temperature" → sget s' k = sget s k)
    (ht : sgetD s "temperature" 0 ≤ 85)
    (ht' : 85 < sgetD s' "temperature" 0) :
    riskRank (calculate_risk_level p s).1 ≤
      riskRank (calculate_risk_level p s').1 := by
  have hoil : sgetD s' "oil_level" 0 = sgetD s "oil_level" 0 := by
    unfold sgetD; rw [hother "oil_level" (by decide)]
  have hvib : sgetD s' "vibration_x" 0 = sgetD s "vibration_x" 0 := by
    unfold sgetD; rw [hother "vibration_x" (by decide)]
  have hc : critical_factors s' = 1 + critical_factors s := by
    unfold critical_factors
    rw [hoil, hvib, if_pos ht', if_neg (not_lt.mpr ht)]
    ring
  rw [riskRank_calc, riskRank_calc]
  refine bandRank_mono ?_ ?_
  · rw [hc]; push_cast; linarith
  · omega

/-- Claim C7, witness: the monotonicity theorem at probability 0,
between the snapshots reading temperature 80 and 90. -/
theorem C7_witness :
    riskRank (calculate_risk_level 0 [("temperature", 80)]).1 ≤
      riskRank (calculate_risk_level 0 [("temperature", 90)]).1 := by
  refine C7_risk_rank_monotone_in_temperature 0 _ _ ?_ ?_ ?_
  · intro k hk
    have hne : ¬("temperature" = k) := fun h => hk h.symm
    simp only [sget, if_neg hne]
  · norm_num +decide [sgetD, sget]
  · norm_num +decide [sgetD, sget]

/-! ## Claim C8 -/

/-- Claim C8: for the scenario snapshot (temperature 95, oil_level 0.1,
vibration_x 7.0, all else 0) the risk scorer returns the Critical band
for every model probability, and the recommendation list built for
that band starts with the emergency stop-and-escalate entry. -/
theorem C8_critical_scenario_emergency_first (p : ℚ) :
    (calculate_risk_level p snapC8).1 = "حرج" ∧
      (generate_recommendations snapC8 p (calculate_risk_level p snapC8).1).head? =
        some "1. إيقاف المضخة فوراً والاتصال بالدعم الفني" := by
  have h1 : (calculate_risk_level p snapC8).1 = "حرج" := by
    norm_num +decide [calculate_risk_level, critical_factors, sgetD, sget, snapC8]
  refine ⟨h1, ?_⟩
  rw [h1]
  norm_num +decide [generate_recommendations, addRec, sgetD, sget, snapC8]
  split_ifs <;> first | rfl | simp_all

/-! ## Claim C9 -/

/-- Claim C9: on a batch of fewer than 20 rows, `detect_anomalies`
returns the batch with the default non-anomalous columns on every row
(anomaly false, score 0, severity low) and never consults the outlier
model or the sensitivity (the result is the same for any oracle and
sensitivity). -/
theorem C9_small_batch_default_annotation (o o' : AnomalyOracle)
    (b : List Row) (sens sens' : ℚ) (h : b.length < 20) :
    detect_anomalies o b sens =
      AnomalyResult.annotated (b.map (fun r =>
        { row := r, anomaly := false, anomaly_score := 0,
          anomaly_severity := "low" })) ∧
    detect_anomalies o b sens = detect_anomalies o' b sens' := by
  constructor <;> simp [detect_anomalies, h]

/-- Claim C9, witness: the small-batch theorem at the 10-row batch,
compared across two different oracles and sensitivities. -/
theorem C9_witness :
    detect_anomalies anomalyOracleFixed batch10 (1/2) =
      AnomalyResult.annotated (batch10.map (fun r =>
        { row := r, anomaly := false, anomaly_score := 0,
          anomaly_severity := "low" })) ∧
    detect_anomalies anomalyOracleFixed batch10 (1/2) =
      detect_anomalies anomalyOracleFail batch10 (9/10) :=
  C9_small_batch_default_annotation _ _ _ _ _ (by norm_num [batch10])

/-! ## Claim C10 -/

/-- Claim C10: when any step of the outlier pipeline fails on a batch
of at least 20 rows, `detect_anomalies` catches the exception and
returns the original input batch unchanged, without the anomaly
columns, rather than an annotated table or a propagated error. -/
theorem C10_pipeline_failure_returns_batch (o : AnomalyOracle)
    (b : List Row) (sens : ℚ) (e : String) (h20 : 20 ≤ b.length)
    (hp : anomaly_pipeline o b sens = Except.error e) :
    detect_anomalies o b sens = AnomalyResult.unannotated b := by
  unfold detect_anomalies
  rw [if_neg (not_lt.mpr h20), hp]

/-- Claim C10, witness: the exception-path theorem at the 20-row batch
with the failing scaler. -/
theorem C10_witness :
    detect_anomalies anomalyOracleFail batch20 (1/2) =
      AnomalyResult.unannotated batch20 :=
  C10_pipeline_failure_returns_batch anomalyOracleFail batch20 (1/2)
    "scaler failed" (by norm_num [batch20]) rfl

end Pump
